import Mathlib

/-!
Shallow embedding of the meshmembers local-observer fan-out subsystem
(`event.go`, `client.go`): node formatting, membership-event dispatch,
the bounded client registry, broadcast fan-out, the per-client disconnect
watcher, and the accept loop, together with theorems checking the
natural-language specification against this embedding.
-/

namespace MeshMembers

/-- A membership node as seen by this core: name, rendered IP address
(`n.Addr.String()` in Go), and port (`uint16`).  External, read-only. -/
structure Node where
  name : String
  addr : String
  port : Nat
  deriving DecidableEq, Repr

/-- The colon test of `net.JoinHostPort` (`bytealg.IndexByteString(host,
':') >= 0`), computed on the character list. -/
def containsColon (host : String) : Bool := host.data.contains ':'

/-- `net.JoinHostPort` from Go's standard library: brackets the host iff it
contains a colon (the literal-IPv6 convention). -/
def joinHostPort (host port : String) : String :=
  if containsColon host then "[" ++ host ++ "]:" ++ port
  else host ++ ":" ++ port

/-- `FormatNode` from `event.go`: `fmt.Sprintf("%s (%s)", n.Name,
net.JoinHostPort(n.Addr.String(), strconv.Itoa(int(n.Port))))`. -/
def FormatNode (n : Node) : String :=
  n.name ++ " (" ++ joinHostPort n.addr (toString n.port) ++ ")"

/-- `memberlist.NodeEventType` is `type NodeEventType int` in the external
library; the constants are `NodeJoin = 0`, `NodeLeave = 1`, `NodeUpdate = 2`.
Go's `%v` verb renders it as its decimal integer (it has no String method). -/
abbrev NodeEventType := Int

abbrev NodeJoin : NodeEventType := 0
abbrev NodeLeave : NodeEventType := 1
abbrev NodeUpdate : NodeEventType := 2

/-- `memberlist.NodeEvent`: an event kind together with the node involved. -/
structure NodeEvent where
  event : NodeEventType
  node : Node
  deriving DecidableEq, Repr

/-- Models the external memberlist library's `Node.String` method, which
returns just the node's name; this is what `fmt`'s `%s` verb calls when
given a `*memberlist.Node`. -/
def Node.goString (n : Node) : String := n.name

/-- `strings.HasSuffix(m, "\n")` from `Broadcastf`, computed on the
character list. -/
def endsWithNewline (m : String) : Bool := m.data.getLast? == some '\n'

/-- The trailing-newline normalisation done by `Broadcastf` in `client.go`
(`strings.HasSuffix(m, "\n")` check followed by `m += "\n"`); `log.Printf`
performs the same normalisation on its output line. -/
def ensureNewline (m : String) : String :=
  if endsWithNewline m then m else m ++ "\n"

/-- The observable output of one event-handling call: the lines handed to
the process log and the payloads handed to `Broadcast`. -/
structure Emitted where
  logs : List String
  broadcasts : List String
  deriving DecidableEq, Repr

/-- `Broadcastf` from `client.go`: formats the line, ensures a trailing
newline, and hands the bytes to `Broadcast`.  Here we record the payload. -/
def Broadcastf (line : String) : String := ensureNewline line

/-- `broadcastAndLogf` from `event.go`: spawns `go Broadcastf(f, a...)` and
calls `log.Printf(f, a...)`; both channels receive the same formatted line
(each with a trailing newline added when absent). -/
def broadcastAndLogf (line : String) : Emitted :=
  { logs := [ensureNewline line], broadcasts := [Broadcastf line] }

/-- `handleEvent` from `event.go`: the switch on `ne.Event`.  A `NodeJoin`
for the local node's own name is suppressed; otherwise exactly one tagged
line is produced.  Note the source's `default` case format string is
`"[Unknown event %v] %ss"`, whose `%ss` appends a literal `s` after the
formatted node. -/
def handleEvent (ourName : String) (ne : NodeEvent) : Emitted :=
  if ne.event = NodeJoin then
    if ourName = ne.node.name then { logs := [], broadcasts := [] }
    else broadcastAndLogf ("[Join] " ++ FormatNode ne.node)
  else if ne.event = NodeUpdate then
    broadcastAndLogf ("[News] " ++ FormatNode ne.node)
  else if ne.event = NodeLeave then
    broadcastAndLogf ("[Part] " ++ FormatNode ne.node)
  else
    broadcastAndLogf
      ("[Unknown event " ++ toString ne.event ++ "] " ++ FormatNode ne.node ++ "s")

/-- `ConflictHandler.NotifyConflict` from `event.go`:
`Broadcastf("[Name Conflict] Existing: %s New: %s", existing, other)`;
`%s` on a `*memberlist.Node` uses the library's `String` method
(`Node.goString`), not `FormatNode`.  The result is the broadcast payload. -/
def NotifyConflict (existing other : Node) : String :=
  Broadcastf ("[Name Conflict] Existing: " ++ existing.goString
    ++ " New: " ++ other.goString)

/-! ## client.go: registry, handleClient, Broadcast, watcher, accept loop -/

/-- `maxClients` from `client.go`: the fixed size of the `clients` slice. -/
def maxClients : Nat := 1024

/-- `readWait` from `client.go`: `time.Second`, in nanoseconds. -/
def readWait : Nat := 1000000000

/-- `acceptWait` from `client.go`: `time.Second`, in nanoseconds.  Declared
in the source (with a comment saying it is the wait after a temporary accept
failure) but never referenced by any other code. -/
def acceptWait : Nat := 1000000000

/-- `localClient` from `client.go`: a connected observer session.  The `tag`
is the `client-<n>` label; `writeErr` records the error, if any, that a
broadcast write on this session's connection returns (abstracting the
connection's I/O behaviour). -/
structure LocalClient where
  tag : String
  writeErr : Option String := none
  deriving DecidableEq, Repr

/-- The `clients` slice: a fixed table of slots, each empty (`nil`) or
holding one session. -/
abbrev Registry := List (Option LocalClient)

/-- The initial `clients` value: `make([]*localClient, maxClients)`. -/
def initialClients : Registry := List.replicate maxClients none

/-- The number of non-empty slots in the registry. -/
def countClients (reg : Registry) : Nat := (reg.filterMap id).length

/-- The roster snapshot `handleClient` writes to a fresh connection: the
header `Current nodes in mesh: <n>` then one `FormatNode` line per member. -/
def snapshotMsg (members : List Node) : String :=
  "Current nodes in mesh: " ++ toString members.length ++ "\n"
    ++ String.join (members.map (fun n => FormatNode n ++ "\n"))

/-- The rejection line sent when every slot is occupied. -/
def tooManyMsg : String := "Too many connected clients, sorry\n"

/-- Result of one `handleClient` call: the bytes written to the client, the
registry afterwards, the claimed slot (if any), whether `handleClient`
closed the connection, and whether a disconnect watcher was spawned. -/
structure HandleClientResult where
  sent : String
  registry : Registry
  slot : Option Nat
  closedConn : Bool
  watcherSpawned : Bool
  deriving DecidableEq, Repr

/-- `handleClient` from `client.go`, with the connection's behaviour on the
snapshot write abstracted as `snapshotWriteErr`: write the roster snapshot;
on write error log, close, and return without registering; otherwise scan
`clients` in index order for the first `nil` slot, install the session there
and spawn its watcher, or — when no slot is free — send the
`Too many connected clients, sorry` line and close. -/
def handleClient (members : List Node) (tag : String)
    (snapshotWriteErr : Option String) (reg : Registry) : HandleClientResult :=
  let snap := snapshotMsg members
  match snapshotWriteErr with
  | some _ =>
      { sent := snap, registry := reg, slot := none, closedConn := true,
        watcherSpawned := false }
  | none =>
      match reg.findIdx? Option.isNone with
      | some i =>
          { sent := snap, registry := reg.set i (some { tag := tag }),
            slot := some i, closedConn := false, watcherSpawned := true }
      | none =>
          { sent := snap ++ tooManyMsg, registry := reg, slot := none,
            closedConn := true, watcherSpawned := false }

/-- The watcher's slot release in `waitForDisconnect`: `clients[ci] = nil`. -/
def freeSlot (reg : Registry) (ci : Nat) : Registry := reg.set ci none

/-- One registry-affecting operation: a local connection being handled, or a
watcher releasing a slot on disconnect. -/
inductive ClientOp where
  | connect (tag : String)
  | disconnect (ci : Nat)
  deriving DecidableEq, Repr

/-- Apply one operation to the registry (snapshot writes assumed to
succeed; a failed snapshot write leaves the registry unchanged anyway). -/
def applyOp (members : List Node) (reg : Registry) : ClientOp → Registry
  | .connect tag => (handleClient members tag none reg).registry
  | .disconnect ci => freeSlot reg ci

/-- Apply a sequence of connect/disconnect operations. -/
def applyOps (members : List Node) (reg : Registry) (ops : List ClientOp) :
    Registry :=
  ops.foldl (applyOp members) reg

/-! ## Broadcast fan-out -/

/-- What one `Broadcast(b)` call does (under the registry lock): copy the
payload and, for every non-empty slot in index order, spawn a write task.
`attempts` records, in slot order, the (tag, payload) of every write
attempted; `warnings` the `[tag] Write error: <err>` log lines of the
failing writes; `closedTags` the tags whose connections the failing tasks
closed.  The registry itself is not modified by `Broadcast`. -/
structure BroadcastResult where
  attempts : List (String × String)
  warnings : List String
  closedTags : List String
  deriving DecidableEq, Repr

/-- `Broadcast` from `client.go`. -/
def Broadcast (reg : Registry) (payload : String) : BroadcastResult :=
  let live := reg.filterMap id
  { attempts := live.map (fun l => (l.tag, payload)),
    warnings := (live.filter (fun l => l.writeErr.isSome)).map
      (fun l => "[" ++ l.tag ++ "] Write error: " ++ l.writeErr.getD ""),
    closedTags := (live.filter (fun l => l.writeErr.isSome)).map
      (fun l => l.tag) }

/-- Slot indices whose session's connection a broadcast write failure
closed; the disconnect watcher of each then takes a terminal read error
and frees that slot. -/
def failingIdxs (reg : Registry) : List Nat :=
  (List.range reg.length).filter (fun i =>
    match reg[i]? with
    | some (some l) => l.writeErr.isSome
    | _ => false)

/-- The registry after each failed session's watcher has run `clients[ci] =
nil` for its own slot. -/
def evictFailed (reg : Registry) : Registry :=
  (failingIdxs reg).foldl freeSlot reg

/-! ## Disconnect watcher -/

/-- The shape of a Go `error` as `waitForDisconnect` and `IsTemporary`
interrogate it: whether `errors.As` finds a `Temporary() bool` that returns
true, likewise `Timeout() bool`; whether `errors.Is(err, io.EOF)`; and the
`%T` and `%v` renderings used in the disconnect log line. -/
structure GoError where
  temporary : Bool := false
  timeout : Bool := false
  isEOF : Bool := false
  typeName : String := ""
  text : String := ""
  deriving DecidableEq, Repr

/-- `IsTemporary` from `client.go`: `nil != err && errors.As(err, &te) &&
te.Temporary()`. -/
def IsTemporary : Option GoError → Bool
  | none => false
  | some e => e.temporary

/-- `errors.As(err, &toErr) && toErr.Timeout()` from `waitForDisconnect`. -/
def isTimeoutErr : Option GoError → Bool
  | none => false
  | some e => e.timeout

/-- One `c.Read(b)` outcome: byte count and error. -/
structure ReadOutcome where
  n : Nat
  err : Option GoError
  deriving DecidableEq, Repr

/-- What the watcher loop body does with one read outcome. -/
inductive WatcherAction where
  /-- Bytes arrived: discard them and read again immediately. -/
  | keepReading
  /-- Zero bytes and no disconnect-worthy error: sleep `ns`, read again. -/
  | sleepThenRead (ns : Nat)
  /-- Terminal error: leave the loop. -/
  | terminate
  deriving DecidableEq, Repr

/-- The branch structure of the loop body in `waitForDisconnect`:
`if 0 != n { continue }`, then `if nil == err || IsTemporary(err) ||
(errors.As(err, &toErr) && toErr.Timeout()) { time.Sleep(readWait);
continue }`, else `break`. -/
def classifyRead (r : ReadOutcome) : WatcherAction :=
  if r.n ≠ 0 then .keepReading
  else if r.err = none || IsTemporary r.err || isTimeoutErr r.err then
    .sleepThenRead readWait
  else .terminate

/-- The disconnect log line: `[tag] Disconnected` for `io.EOF`, and
`[tag] Disconnected (<%T>): <%v>` for every other terminal error. -/
def disconnectLogLine (tag : String) (e : GoError) : String :=
  if e.isEOF then "[" ++ tag ++ "] Disconnected"
  else "[" ++ tag ++ "] Disconnected (" ++ e.typeName ++ "): " ++ e.text

/-- The watcher's post-loop work in `waitForDisconnect`: close the
connection, free slot `ci`, and log the disconnection. -/
structure WatcherExit where
  connClosed : Bool
  registry : Registry
  logLine : String
  deriving DecidableEq, Repr

def watcherTerminal (tag : String) (ci : Nat) (reg : Registry)
    (e : GoError) : WatcherExit :=
  { connClosed := true, registry := freeSlot reg ci,
    logLine := disconnectLogLine tag e }

/-- Run `waitForDisconnect` over a finite trace of read outcomes: the loop
stops at the first terminal outcome, whose error drives the exit work;
`actions` records what each consumed read caused; reads after the terminal
one are never consumed (the watcher has ended). -/
def waitForDisconnect (tag : String) (ci : Nat) (reg : Registry) :
    List ReadOutcome → List WatcherAction × Option WatcherExit
  | [] => ([], none)
  | r :: rest =>
      match classifyRead r with
      | .terminate =>
          ([.terminate], some (watcherTerminal tag ci reg (r.err.getD {})))
      | a =>
          let (as, ex) := waitForDisconnect tag ci reg rest
          (a :: as, ex)

/-! ## Accept loop (`handleClients`) and fatal-error path -/

/-- The observable effects of one iteration of the accept loop in
`handleClients`, given the error (if any) that `AcceptUnix` returned. -/
structure AcceptIteration where
  fatalExit : Bool
  meshDepartureAttempted : Bool
  loggedAcceptError : Bool
  waitedNs : Nat
  spawnedHandler : Bool
  deriving DecidableEq, Repr

/-- `LeaveMeshAndExitWithError` from `client.go`: its body is a `TODO`
comment followed by `log.Fatalf("Fatal error: %s", err)` — the process
exits without any mesh-departure attempt. -/
def LeaveMeshAndExitWithError : AcceptIteration :=
  { fatalExit := true, meshDepartureAttempted := false,
    loggedAcceptError := true, waitedNs := 0, spawnedHandler := false }

/-- One iteration of `handleClients`: `c, err := ul.AcceptUnix(); if nil !=
err && !IsTemporary(err) { LeaveMeshAndExitWithError(...) }; go
handleClient(c, m)`.  On a temporary error nothing is logged, no delay is
taken, and `handleClient` is still spawned on the failed accept's
connection. -/
def handleClientsIteration (err : Option GoError) : AcceptIteration :=
  if err.isSome && !IsTemporary err then LeaveMeshAndExitWithError
  else
    { fatalExit := false, meshDepartureAttempted := false,
      loggedAcceptError := false, waitedNs := 0, spawnedHandler := true }

/-! ## Event dispatcher (`HandleEvents`) as a small-step scheduler

`HandleEvents` is `for ne := range nech { go handleEvent(ourName, ne) }`:
the loop receives events from the channel one at a time in arrival order,
but each `handleEvent` runs in its own goroutine.  We model the possible
executions with an explicit scheduler: at each step either the loop
receives the next channel event and spawns its task, or one pending
`handleEvent` task runs to completion (emitting its log line, if any). -/

/-- Scheduler state for `HandleEvents`: events still in the channel, events
already received (in receive order), spawned `handleEvent` tasks not yet
run, and the log lines emitted so far (in emission order). -/
structure DispatcherState where
  pending : List NodeEvent
  received : List NodeEvent
  tasks : List NodeEvent
  logged : List String
  deriving DecidableEq, Repr

/-- Initial state: all events in the channel, nothing received or run. -/
def initDispatcher (events : List NodeEvent) : DispatcherState :=
  { pending := events, received := [], tasks := [], logged := [] }

/-- A scheduling decision: let the dispatch loop receive the next event, or
run the `i`-th pending `handleEvent` goroutine. -/
inductive SchedChoice where
  | dispatch
  | run (i : Nat)
  deriving DecidableEq, Repr

/-- One scheduler step; `none` when the choice is not enabled. -/
def dispatcherStep (ourName : String) (s : DispatcherState) :
    SchedChoice → Option DispatcherState
  | .dispatch =>
      match s.pending with
      | [] => none
      | e :: rest =>
          some { pending := rest, received := s.received ++ [e],
                 tasks := s.tasks ++ [e], logged := s.logged }
  | .run i =>
      match s.tasks[i]? with
      | none => none
      | some e =>
          some { pending := s.pending, received := s.received,
                 tasks := s.tasks.eraseIdx i,
                 logged := s.logged ++ (handleEvent ourName e).logs }

/-- Run a list of scheduling decisions from a state. -/
def runSched (ourName : String) (s : DispatcherState) :
    List SchedChoice → Option DispatcherState
  | [] => some s
  | c :: cs =>
      match dispatcherStep ourName s c with
      | none => none
      | some s' => runSched ourName s' cs

/-- A state is reachable when some schedule produces it. -/
def DispatcherReachable (ourName : String) (events : List NodeEvent)
    (s : DispatcherState) : Prop :=
  ∃ cs, runSched ourName (initDispatcher events) cs = some s

/-- The log lines of a list of events, in that list's order. -/
def linesOf (ourName : String) (events : List NodeEvent) : List String :=
  (events.map (fun e => (handleEvent ourName e).logs)).flatten

/-! ## Helper lemmas -/

theorem applyOp_length (members : List Node) (reg : Registry)
    (op : ClientOp) : (applyOp members reg op).length = reg.length := by
  cases op with
  | connect tag =>
      unfold applyOp handleClient
      rcases h : reg.findIdx? Option.isNone with _ | i <;> simp [h]
  | disconnect ci => simp [applyOp, freeSlot]

theorem applyOps_length (members : List Node) (reg : Registry)
    (ops : List ClientOp) :
    (applyOps members reg ops).length = reg.length := by
  induction ops generalizing reg with
  | nil => rfl
  | cons op ops ih =>
      rw [applyOps, List.foldl_cons]
      rw [show (List.foldl (applyOp members) (applyOp members reg op) ops)
        = applyOps members (applyOp members reg op) ops from rfl]
      rw [ih, applyOp_length]

theorem countClients_le_length (reg : Registry) :
    countClients reg ≤ reg.length :=
  List.length_filterMap_le id reg

theorem foldl_freeSlot_getElem? (is : List Nat) (reg : Registry) (j : Nat) :
    (is.foldl freeSlot reg)[j]? =
      if j ∈ is ∧ j < reg.length then some none else reg[j]? := by
  induction is generalizing reg with
  | nil => simp
  | cons i is ih =>
      rw [List.foldl_cons, ih]
      by_cases hji : j ∈ is
      · by_cases hl : j < reg.length
        · simp [hji, hl, freeSlot]
        · have h1 : reg[j]? = none :=
            List.getElem?_eq_none (Nat.le_of_not_lt hl)
          have h2 : (freeSlot reg i)[j]? = none :=
            List.getElem?_eq_none (by simpa [freeSlot] using Nat.le_of_not_lt hl)
          simp [hji, hl, freeSlot, h1, h2, Nat.le_of_not_lt hl]
      · by_cases hj : j = i
        · subst hj
          by_cases hl : j < reg.length
          · simp [hji, hl, freeSlot, List.getElem?_set_self hl]
          · simp [hji, hl, freeSlot,
              List.set_eq_of_length_le (Nat.le_of_not_lt hl)]
        · simp [hji, hj, freeSlot, List.getElem?_set_ne (Ne.symm hj)]

theorem mem_failingIdxs (reg : Registry) (i : Nat) :
    i ∈ failingIdxs reg ↔
      ∃ l : LocalClient, reg[i]? = some (some l) ∧ l.writeErr.isSome := by
  unfold failingIdxs
  rw [List.mem_filter, List.mem_range]
  constructor
  · rintro ⟨hlt, hp⟩
    rcases hx : reg[i]? with _ | c
    · rw [hx] at hp; simp at hp
    · rcases c with _ | l
      · rw [hx] at hp; simp at hp
      · rw [hx] at hp; exact ⟨l, rfl, hp⟩
  · rintro ⟨l, hx, hw⟩
    refine ⟨?_, by rw [hx]; exact hw⟩
    rcases List.getElem?_eq_some.mp hx with ⟨hlt, _⟩
    exact hlt

/-! ## Theorems -/

/-- C7: `FormatNode` is a pure function returning exactly
`<name> (<address>:<port>)`; an address containing a colon (a literal IPv6
address) is bracketed per standard host:port formatting and one without
(IPv4 dotted quad) is not; two calls on the same node identity return the
same string. -/
theorem C7_format_node (n : Node) :
    (containsColon n.addr = false →
      FormatNode n =
        n.name ++ " (" ++ (n.addr ++ ":" ++ toString n.port) ++ ")")
    ∧ (containsColon n.addr = true →
      FormatNode n =
        n.name ++ " (" ++ ("[" ++ n.addr ++ "]:" ++ toString n.port) ++ ")")
    ∧ FormatNode n = FormatNode n := by
  refine ⟨fun h => ?_, fun h => ?_, rfl⟩ <;>
    simp [FormatNode, joinHostPort, h]

/-- Witness for C7 at a concrete IPv4 node and a concrete IPv6 node. -/
theorem C7_format_node_witness :
    FormatNode ⟨"n1", "10.0.0.1", 7887⟩ =
      "n1" ++ " (" ++ ("10.0.0.1" ++ ":" ++ toString (7887 : Nat)) ++ ")"
    ∧ FormatNode ⟨"n2", "2001:db8::1", 7887⟩ =
      "n2" ++ " (" ++ ("[" ++ "2001:db8::1" ++ "]:"
        ++ toString (7887 : Nat)) ++ ")" :=
  ⟨(C7_format_node ⟨"n1", "10.0.0.1", 7887⟩).1 (by decide),
   (C7_format_node ⟨"n2", "2001:db8::1", 7887⟩).2.1 (by decide)⟩

/-- C4: a Join event for the local node's own name produces no broadcast
and no log line; every other Join, Update, Leave, or unknown-kind event
produces exactly one formatted line, handed both to the log and to the
broadcast fan-out. -/
theorem C4_one_line_per_event (ourName : String) (ne : NodeEvent) :
    (ne.event = NodeJoin → ourName = ne.node.name →
      handleEvent ourName ne = { logs := [], broadcasts := [] })
    ∧ (¬(ne.event = NodeJoin ∧ ourName = ne.node.name) →
      ∃ l, handleEvent ourName ne = { logs := [l], broadcasts := [l] }) := by
  constructor
  · intro h1 h2
    simp [handleEvent, h1, h2]
  · intro h
    by_cases hJ : ne.event = NodeJoin
    · have hn : ¬ourName = ne.node.name := fun hc => h ⟨hJ, hc⟩
      exact ⟨ensureNewline ("[Join] " ++ FormatNode ne.node),
        by simp [handleEvent, hJ, hn, broadcastAndLogf, Broadcastf,
          NodeJoin, NodeUpdate, NodeLeave]⟩
    · by_cases hU : ne.event = NodeUpdate
      · exact ⟨ensureNewline ("[News] " ++ FormatNode ne.node),
          by simp [handleEvent, hJ, hU, broadcastAndLogf, Broadcastf,
            NodeJoin, NodeUpdate, NodeLeave]⟩
      · by_cases hL : ne.event = NodeLeave
        · exact ⟨ensureNewline ("[Part] " ++ FormatNode ne.node),
            by simp [handleEvent, hJ, hU, hL, broadcastAndLogf, Broadcastf,
              NodeJoin, NodeUpdate, NodeLeave]⟩
        · exact ⟨ensureNewline ("[Unknown event " ++ toString ne.event
              ++ "] " ++ FormatNode ne.node ++ "s"),
            by simp [handleEvent, hJ, hU, hL, broadcastAndLogf, Broadcastf,
              NodeJoin, NodeUpdate, NodeLeave]⟩

/-- Witness for C4: the local node's own join is suppressed, and an update
event produces exactly one line, logged and broadcast alike. -/
theorem C4_one_line_per_event_witness :
    handleEvent "self" ⟨NodeJoin, ⟨"self", "10.0.0.1", 7887⟩⟩ =
      { logs := [], broadcasts := [] }
    ∧ ∃ l, handleEvent "self" ⟨NodeUpdate, ⟨"n2", "10.0.0.2", 7887⟩⟩ =
      { logs := [l], broadcasts := [l] } :=
  ⟨(C4_one_line_per_event "self" ⟨NodeJoin, ⟨"self", "10.0.0.1", 7887⟩⟩).1
      (by decide) rfl,
   (C4_one_line_per_event "self" ⟨NodeUpdate, ⟨"n2", "10.0.0.2", 7887⟩⟩).2
      (by decide)⟩

/-- C10: self-suppression applies only to Join events — an Update or Leave
event whose node name equals the local node's own name still produces,
logs, and broadcasts its `[News]` or `[Part]` line. -/
theorem C10_self_news_part_not_suppressed (ourName : String) (n : Node)
    (_h : n.name = ourName) :
    handleEvent ourName ⟨NodeUpdate, n⟩ =
      { logs := [ensureNewline ("[News] " ++ FormatNode n)],
        broadcasts := [ensureNewline ("[News] " ++ FormatNode n)] }
    ∧ handleEvent ourName ⟨NodeLeave, n⟩ =
      { logs := [ensureNewline ("[Part] " ++ FormatNode n)],
        broadcasts := [ensureNewline ("[Part] " ++ FormatNode n)] } :=
  ⟨rfl, rfl⟩

/-- Witness for C10 at a concrete self-named node. -/
theorem C10_self_news_part_not_suppressed_witness :
    handleEvent "self" ⟨NodeUpdate, ⟨"self", "10.0.0.1", 7887⟩⟩ =
      { logs := [ensureNewline ("[News] " ++ FormatNode ⟨"self", "10.0.0.1", 7887⟩)],
        broadcasts :=
          [ensureNewline ("[News] " ++ FormatNode ⟨"self", "10.0.0.1", 7887⟩)] }
    ∧ handleEvent "self" ⟨NodeLeave, ⟨"self", "10.0.0.1", 7887⟩⟩ =
      { logs := [ensureNewline ("[Part] " ++ FormatNode ⟨"self", "10.0.0.1", 7887⟩)],
        broadcasts :=
          [ensureNewline ("[Part] " ++ FormatNode ⟨"self", "10.0.0.1", 7887⟩)] } :=
  C10_self_news_part_not_suppressed "self" ⟨"self", "10.0.0.1", 7887⟩ rfl

/-- C5 counterexample: the name-conflict broadcast does not render the two
nodes with `FormatNode` — at a concrete pair of nodes the payload differs
from the claimed `[Name Conflict] Existing: <name (addr:port)> New:
<name (addr:port)>` line. -/
theorem C5_conflict_not_formatnode :
    NotifyConflict ⟨"alice", "10.0.0.1", 7887⟩ ⟨"bob", "10.0.0.2", 7887⟩ ≠
      ensureNewline ("[Name Conflict] Existing: "
        ++ FormatNode ⟨"alice", "10.0.0.1", 7887⟩
        ++ " New: " ++ FormatNode ⟨"bob", "10.0.0.2", 7887⟩) := by
  decide

/-- C5 amended: the name-conflict broadcast payload is
`[Name Conflict] Existing: <existing> New: <incoming>` where each node is
rendered by the memberlist library's own `Node.String` method — the bare
node name — rather than by `FormatNode`; `Broadcastf` terminates the line
with a newline. -/
theorem C5_conflict_line (existing other : Node)
    (h : endsWithNewline ("[Name Conflict] Existing: " ++ existing.name
        ++ " New: " ++ other.name) = false) :
    NotifyConflict existing other =
      "[Name Conflict] Existing: " ++ existing.name ++ " New: "
        ++ other.name ++ "\n" := by
  simp [NotifyConflict, Broadcastf, ensureNewline, Node.goString, h]

/-- Witness for C5's amended statement at a concrete pair of nodes. -/
theorem C5_conflict_line_witness :
    NotifyConflict ⟨"alice", "10.0.0.1", 7887⟩ ⟨"bob", "10.0.0.2", 7887⟩ =
      "[Name Conflict] Existing: " ++ "alice" ++ " New: " ++ "bob" ++ "\n" :=
  C5_conflict_line ⟨"alice", "10.0.0.1", 7887⟩ ⟨"bob", "10.0.0.2", 7887⟩
    (by decide)

/-- C6: the unknown-event line carries a stray trailing `s` — the source's
format string is `"[Unknown event %v] %ss"` — so at a concrete unknown-kind
event the produced line is `[Unknown event 3] n1 (10.0.0.1:7887)s`, not the
documented `[Unknown event 3] n1 (10.0.0.1:7887)` and nothing else. -/
theorem C6_unknown_event_trailing_s :
    handleEvent "self" ⟨3, ⟨"n1", "10.0.0.1", 7887⟩⟩ =
      { logs := ["[Unknown event 3] n1 (10.0.0.1:7887)s\n"],
        broadcasts := ["[Unknown event 3] n1 (10.0.0.1:7887)s\n"] }
    ∧ handleEvent "self" ⟨3, ⟨"n1", "10.0.0.1", 7887⟩⟩ ≠
      { logs := ["[Unknown event 3] n1 (10.0.0.1:7887)\n"],
        broadcasts := ["[Unknown event 3] n1 (10.0.0.1:7887)\n"] } := by
  decide

/-- C2 counterexample: a connection rejected for capacity is not sent
exactly the single `Too many connected clients, sorry` line — `handleClient`
writes the roster snapshot (at least the `Current nodes in mesh: <n>`
header) before the capacity check, so the rejected client receives that
snapshot followed by the rejection line. -/
theorem C2_rejection_not_single_line :
    (handleClient [] "client-1" none
        (List.replicate maxClients (some { tag := "c0" }))).sent
      ≠ tooManyMsg := by
  have hn : (List.replicate maxClients
      (some { tag := "c0" } : Option LocalClient)).findIdx? Option.isNone
      = none := by
    rw [List.findIdx?_eq_none_iff]
    intro x hx
    rw [List.eq_of_mem_replicate hx]
    rfl
  unfold handleClient
  rw [hn]
  decide

/-- C2 amended: the number of non-empty registry slots never exceeds
`maxClients = 1024` over any sequence of connect/disconnect operations; a
connection arriving when every slot is occupied receives, after the roster
snapshot every connection gets, exactly one `Too many connected clients,
sorry` line, is closed, and never occupies a slot; a successful claim
installs the session into the first empty slot in fixed index order. -/
theorem C2_registry_capacity :
    (∀ (members : List Node) (ops : List ClientOp),
      countClients (applyOps members initialClients ops) ≤ maxClients)
    ∧ (∀ (members : List Node) (tag : String) (reg : Registry),
        (∀ c ∈ reg, c.isSome) →
        handleClient members tag none reg =
          { sent := snapshotMsg members ++ tooManyMsg, registry := reg,
            slot := none, closedConn := true, watcherSpawned := false })
    ∧ (∀ (members : List Node) (tag : String) (reg : Registry) (i : Nat),
        reg.findIdx? Option.isNone = some i →
        handleClient members tag none reg =
          { sent := snapshotMsg members,
            registry := reg.set i (some { tag := tag }), slot := some i,
            closedConn := false, watcherSpawned := true }
        ∧ ∃ hi : i < reg.length, reg[i] = none
            ∧ ∀ j, j < i → ∀ c, reg[j]? = some c → c.isSome) := by
  refine ⟨fun members ops => ?_, fun members tag reg h => ?_,
    fun members tag reg i h => ?_⟩
  · calc countClients (applyOps members initialClients ops)
        ≤ (applyOps members initialClients ops).length :=
          countClients_le_length _
      _ = maxClients := by
          rw [applyOps_length]; simp [initialClients]
  · have hn : reg.findIdx? Option.isNone = none := by
      rw [List.findIdx?_eq_none_iff]
      intro x hx
      have hs := h x hx
      cases x with
      | none => simp at hs
      | some c => rfl
    unfold handleClient
    rw [hn]
  · have hg := List.findIdx?_eq_some_iff_getElem.mp h
    rcases hg with ⟨hi, hpi, hlt⟩
    refine ⟨?_, hi, ?_, ?_⟩
    · unfold handleClient
      rw [h]
    · simpa using hpi
    · intro j hj c hc
      rcases List.getElem?_eq_some.mp hc with ⟨hjlt, hc2⟩
      have hni : ¬Option.isNone c = true := by
        rw [← hc2]
        exact hlt j hj
      cases c with
      | none => simp at hni
      | some l => rfl

/-- Witness for C2 at concrete registries: one connect stays within
capacity; a full (single-slot) registry rejects with the snapshot plus the
rejection line and stays unchanged; a registry whose first slot is free
gets the session installed at index 0. -/
theorem C2_registry_capacity_witness :
    countClients (applyOps [] initialClients [ClientOp.connect "client-0"])
      ≤ maxClients
    ∧ handleClient [] "client-1" none [some { tag := "c0" }] =
        { sent := snapshotMsg [] ++ tooManyMsg,
          registry := [some { tag := "c0" }], slot := none,
          closedConn := true, watcherSpawned := false }
    ∧ handleClient [] "client-1" none [none] =
        { sent := snapshotMsg [],
          registry := List.set [none] 0 (some { tag := "client-1" }),
          slot := some 0, closedConn := false, watcherSpawned := true } :=
  ⟨C2_registry_capacity.1 [] [ClientOp.connect "client-0"],
   C2_registry_capacity.2.1 [] "client-1" [some { tag := "c0" }]
     (by decide),
   (C2_registry_capacity.2.2 [] "client-1" [none] 0 (by decide)).1⟩

/-- C8: the disconnect watcher discards received bytes and keeps reading;
a zero-byte read with no error, a transient error, or a timeout error
causes a fixed `readWait` wait then another read; any other error —
including clean end-of-stream — ends the loop, closes the connection,
frees the registry slot, and logs the disconnection, with `io.EOF` logged
without the error text and every other terminal error with it; after the
terminal read the watcher consumes nothing further. -/
theorem C8_watcher (r : ReadOutcome) (tag : String) (ci : Nat)
    (reg : Registry) :
    (r.n ≠ 0 → classifyRead r = .keepReading)
    ∧ (r.n = 0 →
        (r.err = none ∨ IsTemporary r.err = true ∨ isTimeoutErr r.err = true) →
        classifyRead r = .sleepThenRead readWait)
    ∧ (∀ rest, classifyRead r ≠ .terminate →
        waitForDisconnect tag ci reg (r :: rest) =
          (classifyRead r :: (waitForDisconnect tag ci reg rest).1,
            (waitForDisconnect tag ci reg rest).2))
    ∧ (∀ e : GoError, r.err = some e → r.n = 0 →
        e.temporary = false → e.timeout = false →
        classifyRead r = .terminate
        ∧ (∀ rest, waitForDisconnect tag ci reg (r :: rest) =
            ([.terminate],
              some { connClosed := true, registry := freeSlot reg ci,
                     logLine := disconnectLogLine tag e }))
        ∧ (e.isEOF = true →
            disconnectLogLine tag e = "[" ++ tag ++ "] Disconnected")
        ∧ (e.isEOF = false →
            disconnectLogLine tag e = "[" ++ tag ++ "] Disconnected ("
              ++ e.typeName ++ "): " ++ e.text)) := by
  refine ⟨fun h => ?_, fun h0 hd => ?_, fun rest hnt => ?_,
    fun e he h0 htemp htime => ?_⟩
  · simp [classifyRead, h]
  · rcases hd with h | h | h <;> simp [classifyRead, h0, h]
  · rcases hc : classifyRead r with _ | ns | _
    · simp [waitForDisconnect, hc]
    · simp [waitForDisconnect, hc]
    · exact absurd hc hnt
  · have hc : classifyRead r = .terminate := by
      simp [classifyRead, h0, he, IsTemporary, isTimeoutErr, htemp, htime]
    refine ⟨hc, fun rest => ?_, fun hEOF => ?_, fun hEOF => ?_⟩
    · simp [waitForDisconnect, hc, watcherTerminal, he]
    · simp [disconnectLogLine, hEOF]
    · simp [disconnectLogLine, hEOF]

/-- Witness for C8 at concrete read outcomes: received bytes, an idle
zero-byte read, and a terminal end-of-stream read on a one-slot registry. -/
theorem C8_watcher_witness :
    classifyRead ⟨1, none⟩ = .keepReading
    ∧ classifyRead ⟨0, none⟩ = .sleepThenRead readWait
    ∧ waitForDisconnect "client-0" 0 [some { tag := "client-0" }]
        [⟨0, some { isEOF := true, typeName := "*errors.errorString",
                    text := "EOF" }⟩] =
      ([.terminate],
        some { connClosed := true,
               registry := freeSlot [some { tag := "client-0" }] 0,
               logLine := disconnectLogLine "client-0"
                 { isEOF := true, typeName := "*errors.errorString",
                   text := "EOF" } }) :=
  ⟨(C8_watcher ⟨1, none⟩ "client-0" 0 []).1 (by decide),
   (C8_watcher ⟨0, none⟩ "client-0" 0 []).2.1 rfl (Or.inl rfl),
   ((C8_watcher
      ⟨0, some { isEOF := true, typeName := "*errors.errorString",
                 text := "EOF" }⟩
      "client-0" 0 [some { tag := "client-0" }]).2.2.2
      { isEOF := true, typeName := "*errors.errorString", text := "EOF" }
      rfl rfl rfl rfl).2.1 []⟩

/-- C9: one iteration of the accept loop, evaluated at a temporary accept
error and at a non-transient one.  A temporary error is neither logged nor
followed by the `acceptWait` delay, and `handleClient` is still spawned on
the failed accept's (nil) connection; a non-transient error terminates the
process via `LeaveMeshAndExitWithError`, whose body is only `log.Fatalf`
(the graceful mesh departure is an unfinished `TODO`). -/
theorem C9_accept_loop_behaviour :
    handleClientsIteration
      (some { temporary := true, typeName := "*net.OpError",
              text := "accept: resource temporarily unavailable" }) =
      { fatalExit := false, meshDepartureAttempted := false,
        loggedAcceptError := false, waitedNs := 0, spawnedHandler := true }
    ∧ handleClientsIteration
      (some { typeName := "*net.OpError",
              text := "accept: bad file descriptor" }) =
      { fatalExit := true, meshDepartureAttempted := false,
        loggedAcceptError := true, waitedNs := 0,
        spawnedHandler := false } := by
  decide

/-- C3: in a broadcast over a registry of non-empty sessions, every
non-empty session gets a write attempt for the payload regardless of
failures elsewhere; a session whose write fails gets a per-session
`[tag] Write error: <err>` warning and its connection closed, and — once
its disconnect watcher reacts to the closed connection — its slot is
freed; a session whose write succeeds keeps its slot. -/
theorem C3_broadcast_isolation (reg : Registry) (payload : String) :
    (∀ (i : Nat) (l : LocalClient), reg[i]? = some (some l) →
      (l.tag, payload) ∈ (Broadcast reg payload).attempts)
    ∧ (∀ (i : Nat) (l : LocalClient) (e : String),
        reg[i]? = some (some l) → l.writeErr = some e →
        ("[" ++ l.tag ++ "] Write error: " ++ e)
            ∈ (Broadcast reg payload).warnings
        ∧ l.tag ∈ (Broadcast reg payload).closedTags
        ∧ (evictFailed reg)[i]? = some none)
    ∧ (∀ (i : Nat) (l : LocalClient), reg[i]? = some (some l) →
        l.writeErr = none → (evictFailed reg)[i]? = some (some l)) := by
  refine ⟨fun i l hx => ?_, fun i l e hx hw => ?_, fun i l hx hw => ?_⟩
  · have hmem : some l ∈ reg := List.getElem?_mem hx
    have hl : l ∈ reg.filterMap id := by
      rw [List.mem_filterMap]
      exact ⟨some l, hmem, rfl⟩
    simpa [Broadcast] using List.mem_map_of_mem _ hl
  · have hmem : some l ∈ reg := List.getElem?_mem hx
    have hl : l ∈ reg.filterMap id := by
      rw [List.mem_filterMap]
      exact ⟨some l, hmem, rfl⟩
    have hfl : l ∈ (reg.filterMap id).filter (fun c => c.writeErr.isSome) :=
      List.mem_filter.mpr ⟨hl, by simp [hw]⟩
    refine ⟨?_, ?_, ?_⟩
    · have := List.mem_map_of_mem
        (fun c : LocalClient =>
          "[" ++ c.tag ++ "] Write error: " ++ c.writeErr.getD "") hfl
      simpa [Broadcast, hw] using this
    · have := List.mem_map_of_mem (fun c : LocalClient => c.tag) hfl
      simpa [Broadcast] using this
    · have hlt : i < reg.length := (List.getElem?_eq_some.mp hx).1
      have hmemIdx : i ∈ failingIdxs reg :=
        (mem_failingIdxs reg i).mpr ⟨l, hx, by simp [hw]⟩
      rw [evictFailed, foldl_freeSlot_getElem?]
      simp [hmemIdx, hlt]
  · have hnot : i ∉ failingIdxs reg := by
      intro hc
      rcases (mem_failingIdxs reg i).mp hc with ⟨l2, hx2, hw2⟩
      rw [hx] at hx2
      cases hx2
      rw [hw] at hw2
      simp at hw2
    rw [evictFailed, foldl_freeSlot_getElem?]
    simp [hnot, hx]

/-- Witness for C3 on a three-slot registry with one live session, one
session whose connection is broken, and one empty slot. -/
theorem C3_broadcast_isolation_witness :
    ("client-0", "[Join] n1 (10.0.0.1:7887)\n")
      ∈ (Broadcast [some { tag := "client-0" },
          some { tag := "client-1", writeErr := some "broken pipe" }, none]
          "[Join] n1 (10.0.0.1:7887)\n").attempts
    ∧ "[client-1] Write error: broken pipe"
      ∈ (Broadcast [some { tag := "client-0" },
          some { tag := "client-1", writeErr := some "broken pipe" }, none]
          "[Join] n1 (10.0.0.1:7887)\n").warnings
    ∧ (evictFailed [some { tag := "client-0" },
          some { tag := "client-1", writeErr := some "broken pipe" }, none])[1]?
      = some none
    ∧ (evictFailed [some { tag := "client-0" },
          some { tag := "client-1", writeErr := some "broken pipe" }, none])[0]?
      = some (some { tag := "client-0" }) :=
  ⟨(C3_broadcast_isolation _ _).1 0 { tag := "client-0" } rfl,
   ((C3_broadcast_isolation
      [some { tag := "client-0" },
        some { tag := "client-1", writeErr := some "broken pipe" }, none]
      "[Join] n1 (10.0.0.1:7887)\n").2.1 1
      { tag := "client-1", writeErr := some "broken pipe" }
      "broken pipe" rfl rfl).1,
   ((C3_broadcast_isolation
      [some { tag := "client-0" },
        some { tag := "client-1", writeErr := some "broken pipe" }, none]
      "[Join] n1 (10.0.0.1:7887)\n").2.1 1
      { tag := "client-1", writeErr := some "broken pipe" }
      "broken pipe" rfl rfl).2.2,
   (C3_broadcast_isolation
      [some { tag := "client-0" },
        some { tag := "client-1", writeErr := some "broken pipe" }, none]
      "[Join] n1 (10.0.0.1:7887)\n").2.2 0 { tag := "client-0" } rfl rfl⟩

/-- One scheduler step preserves the dispatcher invariant: the received
events followed by the pending ones are the arrival sequence, and the
emitted log lines together with the lines of the still-pending tasks are a
permutation of the lines of the received events. -/
theorem dispatcherStep_inv (ourName : String) (events : List NodeEvent)
    (s0 s1 : DispatcherState) (c : SchedChoice)
    (hstep : dispatcherStep ourName s0 c = some s1)
    (h1 : s0.received ++ s0.pending = events)
    (h2 : (s0.logged ++ (s0.tasks.map
        (fun e => (handleEvent ourName e).logs)).flatten).Perm
        (linesOf ourName s0.received)) :
    s1.received ++ s1.pending = events
    ∧ (s1.logged ++ (s1.tasks.map
        (fun e => (handleEvent ourName e).logs)).flatten).Perm
        (linesOf ourName s1.received) := by
  cases c with
  | dispatch =>
      rcases hp : s0.pending with _ | ⟨e, rest⟩
      · simp only [dispatcherStep, hp] at hstep
        cases hstep
      · simp only [dispatcherStep, hp] at hstep
        injection hstep with hstep
        subst hstep
        constructor
        · rw [List.append_assoc, List.singleton_append, ← hp]
          exact h1
        · have key : linesOf ourName (s0.received ++ [e])
              = linesOf ourName s0.received
                ++ (handleEvent ourName e).logs := by
            simp [linesOf]
          have lhs : (((s0.tasks ++ [e]).map
                (fun e => (handleEvent ourName e).logs)).flatten)
              = ((s0.tasks.map
                  (fun e => (handleEvent ourName e).logs)).flatten)
                ++ (handleEvent ourName e).logs := by
            simp
          simp only [key, lhs]
          rw [← List.append_assoc]
          exact h2.append_right _
  | run i =>
      rcases ht : s0.tasks[i]? with _ | e
      · simp only [dispatcherStep, ht] at hstep
        cases hstep
      · simp only [dispatcherStep, ht] at hstep
        injection hstep with hstep
        subst hstep
        refine ⟨h1, ?_⟩
        obtain ⟨hlt, hgete⟩ := List.getElem?_eq_some.mp ht
        have hsplit : s0.tasks
            = s0.tasks.take i ++ e :: s0.tasks.drop (i + 1) := by
          conv_lhs => rw [← List.take_append_drop i s0.tasks]
          rw [List.drop_eq_getElem_cons hlt, hgete]
        have herase : s0.tasks.eraseIdx i
            = s0.tasks.take i ++ s0.tasks.drop (i + 1) :=
          List.eraseIdx_eq_take_drop_succ s0.tasks i
        have hflat : ((s0.tasks.map
              (fun e => (handleEvent ourName e).logs)).flatten)
            = ((s0.tasks.take i).map
                (fun e => (handleEvent ourName e).logs)).flatten
              ++ ((handleEvent ourName e).logs
                ++ ((s0.tasks.drop (i + 1)).map
                  (fun e => (handleEvent ourName e).logs)).flatten) := by
          conv_lhs => rw [hsplit]
          simp
        have hflat2 : (((s0.tasks.eraseIdx i).map
              (fun e => (handleEvent ourName e).logs)).flatten)
            = ((s0.tasks.take i).map
                (fun e => (handleEvent ourName e).logs)).flatten
              ++ ((s0.tasks.drop (i + 1)).map
                  (fun e => (handleEvent ourName e).logs)).flatten := by
          rw [herase]
          simp
        rw [hflat2, List.append_assoc]
        refine List.Perm.trans ?_ h2
        rw [hflat]
        exact (List.perm_append_comm_assoc _ _ _).append_left s0.logged

/-- Every schedule from an invariant-satisfying state lands in an
invariant-satisfying state. -/
theorem runSched_inv (ourName : String) (events : List NodeEvent) :
    ∀ (cs : List SchedChoice) (s0 s : DispatcherState),
      s0.received ++ s0.pending = events →
      (s0.logged ++ (s0.tasks.map
        (fun e => (handleEvent ourName e).logs)).flatten).Perm
        (linesOf ourName s0.received) →
      runSched ourName s0 cs = some s →
      s.received ++ s.pending = events
      ∧ (s.logged ++ (s.tasks.map
          (fun e => (handleEvent ourName e).logs)).flatten).Perm
          (linesOf ourName s.received) := by
  intro cs
  induction cs with
  | nil =>
      intro s0 s h1 h2 hr
      rw [runSched] at hr
      cases hr
      exact ⟨h1, h2⟩
  | cons c cs ih =>
      intro s0 s h1 h2 hr
      rw [runSched] at hr
      rcases hstep : dispatcherStep ourName s0 c with _ | s1
      · rw [hstep] at hr; cases hr
      · rw [hstep] at hr
        obtain ⟨h1', h2'⟩ :=
          dispatcherStep_inv ourName events s0 s1 c hstep h1 h2
        exact ih s1 s h1' h2' hr

/-- The two sample Update events used for the C1 scheduler run. -/
def sampleEvents : List NodeEvent :=
  [⟨NodeUpdate, ⟨"n1", "10.0.0.1", 7887⟩⟩,
   ⟨NodeUpdate, ⟨"n2", "10.0.0.2", 7887⟩⟩]

/-- The scheduler state reached by dispatching both sample events and then
running their `handleEvent` goroutines in reverse order. -/
def outOfOrderState : DispatcherState :=
  { pending := [], received := sampleEvents, tasks := [],
    logged := ["[News] n2 (10.0.0.2:7887)\n", "[News] n1 (10.0.0.1:7887)\n"] }

/-- C1 counterexample: `HandleEvents` spawns `go handleEvent(...)` per
event, so the formatting/logging of event N can run after the dispatch of
event N+1 — a reachable execution of the dispatch loop over two Update
events logs their lines in reversed order, which is not a prefix of the
arrival-order line sequence. -/
theorem C1_log_order_not_arrival_order :
    DispatcherReachable "self" sampleEvents outOfOrderState
    ∧ ¬ outOfOrderState.logged <+: linesOf "self" sampleEvents := by
  constructor
  · exact ⟨[.dispatch, .dispatch, .run 1, .run 0], by decide⟩
  · decide

/-- C1 amended: the dispatch loop receives events from the channel one at
a time in arrival order — in every reachable scheduler state the received
events followed by the still-pending ones are exactly the arrival sequence
— but each event is handed to an independently spawned task, so the lines
logged so far together with those of the not-yet-run tasks are the lines
of the received events only up to permutation, with no arrival-order
guarantee on the log. -/
theorem C1_receive_in_order_log_unordered (ourName : String)
    (events : List NodeEvent) (s : DispatcherState)
    (h : DispatcherReachable ourName events s) :
    s.received ++ s.pending = events
    ∧ (s.logged ++ (s.tasks.map
        (fun e => (handleEvent ourName e).logs)).flatten).Perm
        (linesOf ourName s.received) := by
  rcases h with ⟨cs, hr⟩
  exact runSched_inv ourName events cs (initDispatcher events) s
    (by simp [initDispatcher]) (by simp [initDispatcher, linesOf]) hr

/-- Witness for C1's amended statement at the concrete reversed-log run. -/
theorem C1_receive_in_order_log_unordered_witness :
    outOfOrderState.received ++ outOfOrderState.pending = sampleEvents
    ∧ (outOfOrderState.logged ++ (outOfOrderState.tasks.map
        (fun e => (handleEvent "self" e).logs)).flatten).Perm
        (linesOf "self" outOfOrderState.received) :=
  C1_receive_in_order_log_unordered "self" sampleEvents outOfOrderState
    ⟨[.dispatch, .dispatch, .run 1, .run 0], by decide⟩

end MeshMembers
